import Mathlib

/-!
Shallow embedding of `Pix2Pix_Project/trainer.py`.

The script is straight-line orchestration: module-level directory setup
followed by three optional passes (train, test, export) guarded by the
boolean constants at the top of the file.  We embed it as a pure function
from a configuration (the constants of the script) and an environment
(dataset contents, data-loader randomness, filesystem state) to the list
of delegated calls the script performs, in program order.  Each event in
the trace is one call into the external framework or filesystem.
-/

namespace Pix2Pix

/-- Configuration: the constants hardcoded at the top of trainer.py. -/
structure Config where
  TRAIN : Bool
  TEST : Bool
  TEST_SAMPLE : Nat
  WRITE_LOGS : Bool
  SAVE_CKPTS : Bool
  SAVE_IMG_CKPT : Bool
  EXPORT_MODEL : Bool
  MODEL_NAME : String
  BATCH_SIZE : Nat
  EPOCHS : Nat
  PRINT_FREQ : Nat
  LOG_FREQ : Nat
  CKPT_FREQ : Nat
deriving Repr

/-- CKPT_DIR = os.path.join('checkpoints', MODEL_NAME). -/
def CKPT_DIR (c : Config) : String := "checkpoints/" ++ c.MODEL_NAME

/-- LOG_DIR = 'runs/' + MODEL_NAME. -/
def LOG_DIR (c : Config) : String := "runs/" ++ c.MODEL_NAME

/-- TEST_DIR = 'test/' + MODEL_NAME. -/
def TEST_DIR (c : Config) : String := "test/" ++ c.MODEL_NAME

/-- n_epochs and n_epochs_decay passed to Pix2PixModel: EPOCHS/2 (true
division, so a rational). -/
def halfEpochs (c : Config) : ℚ := (c.EPOCHS : ℚ) / 2

/-- A sample produced by the data loader: an abstract image id together
with whether the random horizontal flip was applied to it. -/
structure Sample where
  id : Nat
  flipped : Bool
deriving DecidableEq, Repr

/-- Environment: everything outside the script that its behaviour can
depend on — the dataset directory contents, the randomness consumed by
the data loader, and which directories already exist on disk. -/
structure Env where
  trainFiles : List Nat
  testFiles : List Nat
  trainFlipDefault : Bool
  shufflePerm : List Nat → List Nat
  flipCoin : Nat → Bool
  dirExists : String → Bool

/-- Modelled from the spec: `ImageFolderLoader` and the framework
DataLoader are not under src (only trainer.py is); per the spec the
loader yields the directory samples, shuffled only when shuffle is set
(randomness from the environment) and randomly flipped only when flip is
set.  With shuffle and flip unset it is the identity enumeration. -/
def dataLoader (files : List Nat) (flip shuffle : Bool) (env : Env) : List Sample :=
  let order := if shuffle then env.shufflePerm files else files
  order.map (fun n => ⟨n, flip && env.flipCoin n⟩)

/-- One delegated call performed by the script, in program order. -/
inductive Event where
  | makedirs (path : String)
  | createWriter (logDir : String)
  | createLoader (root phase : String) (flip : Bool) (batchSize : Nat)
      (shuffle : Bool) (numWorkers : Nat)
  | constructModel (ckptDir name : String) (isTrain : Bool)
      (nEpochs nEpochsDecay : ℚ)
  | setup
  | updateLR
  | setInput (s : Sample)
  | optimize
  | printLosses
  | writeLog
  | saveNetwork (epoch : Nat)
  | getVisuals
  | saveVisuals (path : String)
  | printEndEpoch
  | plotVisuals
  | evalMode
  | loadNetworks (idx : Nat)
  | modelTest
  | randn
  | openFile (path : String)
  | exportOnnx (path : String)
deriving DecidableEq, Repr

/-- Module-level setup: conditional makedirs for the three output
directories, then the SummaryWriter when WRITE_LOGS. -/
def dirSetupTrace (c : Config) (env : Env) : List Event :=
  (if c.SAVE_CKPTS && !(env.dirExists (CKPT_DIR c)) then [.makedirs (CKPT_DIR c)] else []) ++
  (if c.WRITE_LOGS && !(env.dirExists (LOG_DIR c)) then [.makedirs (LOG_DIR c)] else []) ++
  (if c.SAVE_IMG_CKPT && !(env.dirExists (TEST_DIR c)) then [.makedirs (TEST_DIR c)] else []) ++
  (if c.WRITE_LOGS then [.createWriter (LOG_DIR c)] else [])

/-- Body of one training batch.  `ti` is total_iters after the
`total_iters += BATCH_SIZE` increment, which is what the print/log
conditions test. -/
def batchBody (c : Config) (ti : Nat) (s : Sample) : List Event :=
  [.setInput s, .optimize] ++
  (if ti % c.PRINT_FREQ == 0 then [.printLosses] else []) ++
  (if c.WRITE_LOGS && ti % c.LOG_FREQ == 0 then [.writeLog] else [])

/-- Inner loop `for i, data in enumerate(trainSet)`, threading
total_iters. -/
def batchLoop (c : Config) : List Sample → Nat → List Event × Nat
  | [], ti => ([], ti)
  | s :: rest, ti =>
    let ti2 := ti + c.BATCH_SIZE
    let evs := batchBody c ti2 s
    let r := batchLoop c rest ti2
    (evs ++ r.1, r.2)

/-- The TEST_DIR/epoch_<e>.jpg path used for checkpoint images. -/
def epochImgPath (c : Config) (e : Nat) : String :=
  TEST_DIR c ++ "/" ++ "epoch_" ++ toString e ++ ".jpg"

/-- Events of one iteration of `for epoch in range(EPOCHS)`: the
conditional update_learning_rate, the batch loop, the conditional
checkpoint save (with its image), and the end-of-epoch print. -/
def epochBody (c : Config) (samples : List Sample) (e ti : Nat) : List Event × Nat :=
  let lr : List Event := if e ≠ 0 then [.updateLR] else []
  let b := batchLoop c samples ti
  let ckpt : List Event :=
    if c.SAVE_CKPTS && e % c.CKPT_FREQ == 0 then
      [.saveNetwork e] ++
      (if c.SAVE_IMG_CKPT then [.getVisuals, .saveVisuals (epochImgPath c e)] else [])
    else []
  (lr ++ b.1 ++ ckpt ++ [.printEndEpoch], b.2)

/-- Loop over the epoch indices, keeping each epoch paired with the
events it emits, threading total_iters. -/
def epochLoop (c : Config) (samples : List Sample) : List Nat → Nat → List (Nat × List Event) × Nat
  | [], ti => ([], ti)
  | e :: rest, ti =>
    let b := epochBody c samples e ti
    let r := epochLoop c samples rest b.2
    ((e, b.1) :: r.1, r.2)

/-- Samples the train DataLoader yields: shuffle=False, flip left at the
loader default (which lives outside src, hence in the environment). -/
def trainSamples (env : Env) : List Sample :=
  dataLoader env.trainFiles env.trainFlipDefault false env

/-- The per-epoch event segments of the training loop, with total_iters
starting at 0. -/
def trainSegs (c : Config) (env : Env) : List (Nat × List Event) :=
  (epochLoop c (trainSamples env) (List.range c.EPOCHS) 0).1

/-- Events after the epoch loop: the final save/overwrite of the last
epoch (the loop variable retains its final value EPOCHS-1) and the final
plot. -/
def trainFinal (c : Config) : List Event :=
  (if c.SAVE_CKPTS then
    [.saveNetwork (c.EPOCHS - 1)] ++
    (if c.SAVE_IMG_CKPT then [.getVisuals, .saveVisuals (epochImgPath c (c.EPOCHS - 1))] else [])
   else []) ++
  [.getVisuals, .plotVisuals]

/-- The whole `if TRAIN:` block. -/
def trainTrace (c : Config) (env : Env) : List Event :=
  [.createLoader "facades/AB" "train" env.trainFlipDefault c.BATCH_SIZE false 4,
   .constructModel (CKPT_DIR c) c.MODEL_NAME true (halfEpochs c) (halfEpochs c),
   .setup] ++
  (trainSegs c env).flatMap Prod.snd ++
  trainFinal c

/-- The TEST_DIR/test_<i>.jpg path used for test images. -/
def testImgPath (c : Config) (i : Nat) : String :=
  TEST_DIR c ++ "/" ++ "test_" ++ toString i ++ ".jpg"

/-- Loop `for i, data in enumerate(testSet)`: process while
i < TEST_SAMPLE, break at the first index that is not. -/
def testLoop (c : Config) : Nat → List Sample → List Event
  | _, [] => []
  | i, s :: rest =>
    if i < c.TEST_SAMPLE then
      [.setInput s, .modelTest, .getVisuals, .saveVisuals (testImgPath c i)] ++
      testLoop c (i + 1) rest
    else []

/-- Samples the test DataLoader yields: shuffle=False, flip=False. -/
def testSamples (env : Env) : List Sample :=
  dataLoader env.testFiles false false env

/-- The whole `if TEST:` block. -/
def testTrace (c : Config) (env : Env) : List Event :=
  [.createLoader "facades/AB" "test" false c.BATCH_SIZE false 0,
   .constructModel (CKPT_DIR c) c.MODEL_NAME false (halfEpochs c) (halfEpochs c),
   .setup, .evalMode, .loadNetworks 0] ++
  testLoop c 0 (testSamples env)

/-- The exported/<MODEL_NAME>.onnx path. -/
def exportPath (c : Config) : String := "exported/" ++ c.MODEL_NAME ++ ".onnx"

/-- The whole `if EXPORT_MODEL:` block. -/
def exportTrace (c : Config) (env : Env) : List Event :=
  [.randn,
   .constructModel (CKPT_DIR c) c.MODEL_NAME false (halfEpochs c) (halfEpochs c),
   .setup, .evalMode, .loadNetworks 0] ++
  (if !(env.dirExists "exported") then [.makedirs "exported"] else []) ++
  [.openFile (exportPath c), .exportOnnx (exportPath c)]

/-- Phase of the script a delegated call belongs to. -/
inductive Mode where
  | dirs
  | train
  | test
  | export
deriving DecidableEq, Repr

/-- Program-order index of each phase. -/
def Mode.idx : Mode → Nat
  | .dirs => 0
  | .train => 1
  | .test => 2
  | .export => 3

/-- The full run, each event tagged with the phase that emits it:
module-level setup, then the three optional passes in source order. -/
def mainTagged (c : Config) (env : Env) : List (Mode × Event) :=
  (dirSetupTrace c env).map (fun e => (Mode.dirs, e)) ++
  (if c.TRAIN then (trainTrace c env).map (fun e => (Mode.train, e)) else []) ++
  (if c.TEST then (testTrace c env).map (fun e => (Mode.test, e)) else []) ++
  (if c.EXPORT_MODEL then (exportTrace c env).map (fun e => (Mode.export, e)) else [])

/-- The full run trace: every delegated call, in program order. -/
def mainTrace (c : Config) (env : Env) : List Event :=
  (mainTagged c env).map Prod.snd

/-- Observation: the sample fed by a set_input call, if any. -/
def inputOf : Event → Option Sample
  | .setInput s => some s
  | _ => none

/-- Observation: the path written by a save_visuals call, if any. -/
def saveOf : Event → Option String
  | .saveVisuals p => some p
  | _ => none

/-- The sequence of samples the test pass feeds to the model, in order. -/
def testInputs (c : Config) (env : Env) : List Sample :=
  (testTrace c env).filterMap inputOf

/-- The image paths the test pass writes, in order. -/
def testSaves (c : Config) (env : Env) : List String :=
  (testTrace c env).filterMap saveOf

/-- Execution under an exception oracle: the script performs its
delegated calls in program order; the oracle says whether the k-th call
raises.  There is no try/except anywhere in the script, so a raised
exception aborts the run: the failing call has no effect and nothing
after it runs.  Returns the calls that completed and the propagated
exception, if any. -/
def execCalls (oracle : Nat → Option String) : List Event → Nat → List Event × Option String
  | [], _ => ([], none)
  | e :: rest, k =>
    match oracle k with
    | some err => ([], some err)
    | none =>
      let r := execCalls oracle rest (k + 1)
      (e :: r.1, r.2)

/-- The full run under an exception oracle. -/
def runExc (c : Config) (env : Env) (oracle : Nat → Option String) : List Event × Option String :=
  execCalls oracle (mainTrace c env) 0

/-- The concrete configuration of trainer.py as committed. -/
def defaultConfig : Config where
  TRAIN := true
  TEST := true
  TEST_SAMPLE := 5
  WRITE_LOGS := true
  SAVE_CKPTS := true
  SAVE_IMG_CKPT := true
  EXPORT_MODEL := true
  MODEL_NAME := "pix2pix_run_1"
  BATCH_SIZE := 1
  EPOCHS := 10
  PRINT_FREQ := 100
  LOG_FREQ := 100
  CKPT_FREQ := 2

/-- A small concrete environment used to instantiate theorems. -/
def env0 : Env where
  trainFiles := [3, 1, 4]
  testFiles := [7, 2]
  trainFlipDefault := true
  shufflePerm := fun l => l.reverse
  flipCoin := fun n => n % 2 == 0
  dirExists := fun _ => false

/-- A second concrete environment: same datasets as env0 but different
data-loader randomness and filesystem state. -/
def env1 : Env where
  trainFiles := [3, 1, 4]
  testFiles := [7, 2]
  trainFlipDefault := false
  shufflePerm := fun l => l
  flipCoin := fun _ => true
  dirExists := fun p => p = "exported"

/-- A concrete exception oracle: the fourth delegated call raises. -/
def oracle0 : Nat → Option String :=
  fun k => if k = 3 then some "RuntimeError" else none


/-! ### Helper lemmas: membership characterisations of the loop traces -/

lemma mem_batchBody {c : Config} {ti : Nat} {s : Sample} {ev : Event}
    (h : ev ∈ batchBody c ti s) :
    ev = .setInput s ∨ ev = .optimize ∨ ev = .printLosses ∨ ev = .writeLog := by
  simp only [batchBody, List.mem_append, List.mem_cons, List.mem_singleton] at h
  rcases h with (h | h) | h
  · tauto
  · split at h <;> simp at h <;> tauto
  · split at h <;> simp at h <;> tauto

lemma mem_batchLoop {c : Config} {ev : Event} :
    ∀ (l : List Sample) (ti : Nat), ev ∈ (batchLoop c l ti).1 →
    (∃ s, ev = .setInput s) ∨ ev = .optimize ∨ ev = .printLosses ∨ ev = .writeLog := by
  intro l
  induction l with
  | nil => intro ti h; simp [batchLoop] at h
  | cons s rest ih =>
    intro ti h
    simp only [batchLoop, List.mem_append] at h
    rcases h with h | h
    · rcases mem_batchBody h with h | h | h | h <;> [exact Or.inl ⟨s, h⟩; tauto; tauto; tauto]
    · exact ih _ h

lemma mem_epochBody {c : Config} {samples : List Sample} {e ti : Nat} {ev : Event}
    (h : ev ∈ (epochBody c samples e ti).1) :
    ev = .updateLR ∨ (∃ s, ev = .setInput s) ∨ ev = .optimize ∨ ev = .printLosses ∨
    ev = .writeLog ∨ ev = .saveNetwork e ∨ ev = .getVisuals ∨
    ev = .saveVisuals (epochImgPath c e) ∨ ev = .printEndEpoch := by
  simp only [epochBody, List.mem_append, List.mem_singleton] at h
  rcases h with ((h | h) | h) | h
  · split at h <;> simp at h; tauto
  · rcases mem_batchLoop _ _ h with h | h | h | h <;> tauto
  · split at h
    · simp only [List.cons_append, List.nil_append, List.mem_cons] at h
      rcases h with h | h
      · tauto
      · split at h <;> simp at h <;> tauto
    · simp at h
  · tauto

lemma epochLoop_mem_char {c : Config} {samples : List Sample} :
    ∀ (es : List Nat) (ti : Nat) (p : Nat × List Event),
    p ∈ (epochLoop c samples es ti).1 →
    p.1 ∈ es ∧ ∃ t2, p.2 = (epochBody c samples p.1 t2).1 := by
  intro es
  induction es with
  | nil => intro ti p h; simp [epochLoop] at h
  | cons e rest ih =>
    intro ti p h
    simp only [epochLoop, List.mem_cons] at h
    rcases h with h | h
    · subst h; exact ⟨List.mem_cons_self _ _, ti, rfl⟩
    · obtain ⟨h1, h2⟩ := ih _ p h
      exact ⟨List.mem_cons_of_mem _ h1, h2⟩

lemma epochLoop_map_fst {c : Config} {samples : List Sample} :
    ∀ (es : List Nat) (ti : Nat),
    (epochLoop c samples es ti).1.map Prod.fst = es := by
  intro es
  induction es with
  | nil => intro ti; simp [epochLoop]
  | cons e rest ih => intro ti; simp [epochLoop, ih]

lemma mem_segsFlat {c : Config} {env : Env} {ev : Event}
    (h : ev ∈ (trainSegs c env).flatMap Prod.snd) :
    ∃ e, e ∈ List.range c.EPOCHS ∧ ∃ ti, ev ∈ (epochBody c (trainSamples env) e ti).1 := by
  rw [List.mem_flatMap] at h
  obtain ⟨p, hp, hev⟩ := h
  obtain ⟨h1, t2, h2⟩ := epochLoop_mem_char _ _ p hp
  exact ⟨p.1, h1, t2, h2 ▸ hev⟩

lemma mem_testLoop {c : Config} {ev : Event} :
    ∀ (l : List Sample) (i : Nat), ev ∈ testLoop c i l →
    (∃ s, ev = .setInput s) ∨ ev = .modelTest ∨ ev = .getVisuals ∨
    (∃ j, ev = .saveVisuals (testImgPath c j)) := by
  intro l
  induction l with
  | nil => intro i h; simp [testLoop] at h
  | cons s rest ih =>
    intro i h
    simp only [testLoop] at h
    split at h
    · simp only [List.cons_append, List.nil_append, List.mem_cons] at h
      rcases h with h | h | h | h | h
      · exact Or.inl ⟨s, h⟩
      · tauto
      · tauto
      · exact Or.inr (Or.inr (Or.inr ⟨i, h⟩))
      · exact ih _ h
    · simp at h


/-! ### Helper lemmas: the main trace decomposes into the four blocks -/

lemma mainTrace_eq (c : Config) (env : Env) :
    mainTrace c env =
      dirSetupTrace c env ++
      (if c.TRAIN then trainTrace c env else []) ++
      (if c.TEST then testTrace c env else []) ++
      (if c.EXPORT_MODEL then exportTrace c env else []) := by
  simp only [mainTrace, mainTagged, List.map_append, List.map_map, apply_ite (List.map Prod.snd),
    List.map_nil]
  simp [Function.comp_def]

lemma mem_dirSetup {c : Config} {env : Env} {ev : Event}
    (h : ev ∈ dirSetupTrace c env) :
    (ev = .makedirs (CKPT_DIR c) ∧ c.SAVE_CKPTS = true) ∨
    (ev = .makedirs (LOG_DIR c) ∧ c.WRITE_LOGS = true) ∨
    (ev = .makedirs (TEST_DIR c) ∧ c.SAVE_IMG_CKPT = true) ∨
    (ev = .createWriter (LOG_DIR c) ∧ c.WRITE_LOGS = true) := by
  simp only [dirSetupTrace, List.mem_append] at h
  rcases h with ((h | h) | h) | h <;> split at h <;>
    simp_all [List.mem_singleton] <;> simp_all

lemma mem_trainFinal {c : Config} {ev : Event}
    (h : ev ∈ trainFinal c) :
    (ev = .saveNetwork (c.EPOCHS - 1) ∧ c.SAVE_CKPTS = true) ∨
    (ev = .saveVisuals (epochImgPath c (c.EPOCHS - 1)) ∧ c.SAVE_CKPTS = true ∧ c.SAVE_IMG_CKPT = true) ∨
    ev = .getVisuals ∨ ev = .plotVisuals := by
  simp only [trainFinal, List.mem_append] at h
  rcases h with h | h
  · split at h
    next hS =>
      simp only [List.cons_append, List.nil_append, List.mem_cons] at h
      rcases h with h | h
      · exact Or.inl ⟨h, hS⟩
      · split at h
        next hI =>
          simp only [List.mem_cons, List.not_mem_nil, or_false] at h
          rcases h with h | h
          · tauto
          · exact Or.inr (Or.inl ⟨h, hS, hI⟩)
        next => simp at h
    next => simp at h
  · simp only [List.mem_cons, List.not_mem_nil, or_false] at h; tauto

lemma mem_trainTrace {c : Config} {env : Env} {ev : Event}
    (h : ev ∈ trainTrace c env) :
    ev = .createLoader "facades/AB" "train" env.trainFlipDefault c.BATCH_SIZE false 4 ∨
    ev = .constructModel (CKPT_DIR c) c.MODEL_NAME true (halfEpochs c) (halfEpochs c) ∨
    ev = .setup ∨
    ev ∈ (trainSegs c env).flatMap Prod.snd ∨
    ev ∈ trainFinal c := by
  simp only [trainTrace, List.cons_append, List.nil_append, List.mem_cons, List.mem_append] at h
  tauto

lemma mem_testTrace {c : Config} {env : Env} {ev : Event}
    (h : ev ∈ testTrace c env) :
    ev = .createLoader "facades/AB" "test" false c.BATCH_SIZE false 0 ∨
    ev = .constructModel (CKPT_DIR c) c.MODEL_NAME false (halfEpochs c) (halfEpochs c) ∨
    ev = .setup ∨ ev = .evalMode ∨ ev = .loadNetworks 0 ∨
    ev ∈ testLoop c 0 (testSamples env) := by
  simp only [testTrace, List.cons_append, List.nil_append, List.mem_cons, List.mem_append] at h
  tauto

lemma mem_exportTrace {c : Config} {env : Env} {ev : Event}
    (h : ev ∈ exportTrace c env) :
    ev = .randn ∨
    ev = .constructModel (CKPT_DIR c) c.MODEL_NAME false (halfEpochs c) (halfEpochs c) ∨
    ev = .setup ∨ ev = .evalMode ∨ ev = .loadNetworks 0 ∨
    ev = .makedirs "exported" ∨
    ev = .openFile (exportPath c) ∨ ev = .exportOnnx (exportPath c) := by
  by_cases hd : env.dirExists "exported" = true
  · simp only [exportTrace, hd] at h
    simp only [Bool.not_true, Bool.false_eq_true, if_false, List.nil_append, List.cons_append,
      List.mem_cons, List.not_mem_nil, or_false] at h
    tauto
  · simp only [Bool.not_eq_true] at hd
    simp only [exportTrace, hd] at h
    simp only [Bool.not_false, if_true, List.cons_append, List.nil_append,
      List.mem_cons, List.not_mem_nil, or_false] at h
    tauto


/-! ### Helper lemmas: counting events -/

lemma not_mem_batchLoop {c : Config} {ev : Event} (l : List Sample) (ti : Nat)
    (h1 : ∀ s, ev ≠ .setInput s) (h2 : ev ≠ .optimize) (h3 : ev ≠ .printLosses)
    (h4 : ev ≠ .writeLog) : ev ∉ (batchLoop c l ti).1 := by
  intro h
  rcases mem_batchLoop l ti h with ⟨s, hs⟩ | h | h | h
  exacts [h1 s hs, h2 h, h3 h, h4 h]

lemma not_mem_testLoop {c : Config} {ev : Event} (l : List Sample) (i : Nat)
    (h1 : ∀ s, ev ≠ .setInput s) (h2 : ev ≠ .modelTest) (h3 : ev ≠ .getVisuals)
    (h4 : ∀ j, ev ≠ .saveVisuals (testImgPath c j)) : ev ∉ testLoop c i l := by
  intro h
  rcases mem_testLoop l i h with ⟨s, hs⟩ | h | h | ⟨j, hj⟩
  exacts [h1 s hs, h2 h, h3 h, h4 j hj]

lemma count_updateLR_batchLoop (c : Config) (l : List Sample) (ti : Nat) :
    List.count Event.updateLR (batchLoop c l ti).1 = 0 :=
  List.count_eq_zero.mpr (not_mem_batchLoop l ti (by simp) (by simp) (by simp) (by simp))

lemma count_saveNetwork_batchLoop (c : Config) (x : Nat) (l : List Sample) (ti : Nat) :
    List.count (Event.saveNetwork x) (batchLoop c l ti).1 = 0 :=
  List.count_eq_zero.mpr (not_mem_batchLoop l ti (by simp) (by simp) (by simp) (by simp))

lemma count_updateLR_epochBody (c : Config) (samples : List Sample) (e ti : Nat) :
    List.count Event.updateLR (epochBody c samples e ti).1 = if e = 0 then 0 else 1 := by
  by_cases he : e = 0 <;> by_cases hs : c.SAVE_CKPTS = true <;>
    by_cases hm : e % c.CKPT_FREQ = 0 <;> by_cases hi : c.SAVE_IMG_CKPT = true <;>
    simp [epochBody, he, hs, hm, hi, List.count_append, count_updateLR_batchLoop,
      List.count_cons] <;>
    omega

lemma count_saveNetwork_epochBody (c : Config) (samples : List Sample) (x e ti : Nat) :
    List.count (Event.saveNetwork x) (epochBody c samples e ti).1 =
      if x = e ∧ c.SAVE_CKPTS = true ∧ e % c.CKPT_FREQ = 0 then 1 else 0 := by
  by_cases hs : c.SAVE_CKPTS = true <;> by_cases hm : e % c.CKPT_FREQ = 0 <;>
    by_cases hx : x = e <;> by_cases he : e = 0 <;> by_cases hi : c.SAVE_IMG_CKPT = true <;>
    simp [epochBody, hs, hm, hx, he, hi, List.count_append, count_saveNetwork_batchLoop,
      List.count_cons] <;>
    first
    | omega
    | (split_ifs <;> omega)
    | (simp [eq_comm] <;> omega)

lemma count_flat_epochLoop {c : Config} {samples : List Sample} {ev : Event} (g : Nat → Nat)
    (h : ∀ e ti, List.count ev (epochBody c samples e ti).1 = g e) :
    ∀ (es : List Nat) (ti : Nat),
      List.count ev (((epochLoop c samples es ti).1).flatMap Prod.snd) = (es.map g).sum := by
  intro es
  induction es with
  | nil => intro ti; simp [epochLoop]
  | cons e rest ih =>
    intro ti
    simp only [epochLoop, List.flatMap_cons, List.count_append, h, ih, List.map_cons,
      List.sum_cons]

lemma sum_range_one_sub (n : Nat) :
    ((List.range n).map (fun e => if e = 0 then 0 else 1)).sum = n - 1 := by
  induction n with
  | zero => simp
  | succ k ih =>
    rw [List.range_succ, List.map_append, List.sum_append, ih]
    simp only [List.map_cons, List.map_nil, List.sum_cons, List.sum_nil]
    split <;> omega

lemma sum_range_indicator (n x : Nat) (P : Nat → Prop) [DecidablePred P] :
    ((List.range n).map (fun e => if x = e ∧ P e then 1 else 0)).sum =
      if x < n ∧ P x then 1 else 0 := by
  induction n with
  | zero => simp
  | succ k ih =>
    rw [List.range_succ, List.map_append, List.sum_append, ih]
    simp only [List.map_cons, List.map_nil, List.sum_cons, List.sum_nil, Nat.add_zero]
    by_cases hx : x = k
    · subst hx
      by_cases hp : P x <;> simp [hp, Nat.lt_succ_self, Nat.lt_irrefl]
    · by_cases hp : P x
      · by_cases hk : x < k
        · have hk1 : x < k + 1 := by omega
          simp [hp, hk, hk1, hx]
        · have hk1 : ¬(x < k + 1) := by omega
          simp [hp, hk, hk1, hx]
      · simp [hp, hx]


/-! ### Events that never occur in particular blocks -/

lemma optimize_not_mem_dirSetup (c : Config) (env : Env) :
    Event.optimize ∉ dirSetupTrace c env := by
  intro h
  rcases mem_dirSetup h with ⟨h, _⟩ | ⟨h, _⟩ | ⟨h, _⟩ | ⟨h, _⟩ <;> simp at h

lemma updateLR_not_mem_dirSetup (c : Config) (env : Env) :
    Event.updateLR ∉ dirSetupTrace c env := by
  intro h
  rcases mem_dirSetup h with ⟨h, _⟩ | ⟨h, _⟩ | ⟨h, _⟩ | ⟨h, _⟩ <;> simp at h

lemma saveNetwork_not_mem_dirSetup (c : Config) (env : Env) (x : Nat) :
    Event.saveNetwork x ∉ dirSetupTrace c env := by
  intro h
  rcases mem_dirSetup h with ⟨h, _⟩ | ⟨h, _⟩ | ⟨h, _⟩ | ⟨h, _⟩ <;> simp at h

lemma optimize_not_mem_testTrace (c : Config) (env : Env) :
    Event.optimize ∉ testTrace c env := by
  intro h
  rcases mem_testTrace h with h | h | h | h | h | h
  any_goals simp at h
  exact not_mem_testLoop _ _ (by simp) (by simp) (by simp) (by simp) h

lemma updateLR_not_mem_testTrace (c : Config) (env : Env) :
    Event.updateLR ∉ testTrace c env := by
  intro h
  rcases mem_testTrace h with h | h | h | h | h | h
  any_goals simp at h
  exact not_mem_testLoop _ _ (by simp) (by simp) (by simp) (by simp) h

lemma saveNetwork_not_mem_testTrace (c : Config) (env : Env) (x : Nat) :
    Event.saveNetwork x ∉ testTrace c env := by
  intro h
  rcases mem_testTrace h with h | h | h | h | h | h
  any_goals simp at h
  exact not_mem_testLoop _ _ (by simp) (by simp) (by simp) (by simp) h

lemma optimize_not_mem_exportTrace (c : Config) (env : Env) :
    Event.optimize ∉ exportTrace c env := by
  intro h
  rcases mem_exportTrace h with h | h | h | h | h | h | h | h <;> simp at h

lemma updateLR_not_mem_exportTrace (c : Config) (env : Env) :
    Event.updateLR ∉ exportTrace c env := by
  intro h
  rcases mem_exportTrace h with h | h | h | h | h | h | h | h <;> simp at h

lemma saveNetwork_not_mem_exportTrace (c : Config) (env : Env) (x : Nat) :
    Event.saveNetwork x ∉ exportTrace c env := by
  intro h
  rcases mem_exportTrace h with h | h | h | h | h | h | h | h <;> simp at h

lemma optimize_not_mem_trainFinal (c : Config) :
    Event.optimize ∉ trainFinal c := by
  intro h
  rcases mem_trainFinal h with ⟨h, _⟩ | ⟨h, _⟩ | h | h <;> simp at h

lemma updateLR_not_mem_trainFinal (c : Config) :
    Event.updateLR ∉ trainFinal c := by
  intro h
  rcases mem_trainFinal h with ⟨h, _⟩ | ⟨h, _⟩ | h | h <;> simp at h

lemma count_saveNetwork_trainFinal (c : Config) (x : Nat) :
    List.count (Event.saveNetwork x) (trainFinal c) =
      if c.SAVE_CKPTS = true ∧ x = c.EPOCHS - 1 then 1 else 0 := by
  by_cases hs : c.SAVE_CKPTS = true <;> by_cases hi : c.SAVE_IMG_CKPT = true <;>
    by_cases hx : x = c.EPOCHS - 1 <;>
    simp [trainFinal, hs, hi, hx, List.count_append, List.count_cons] <;>
    first
    | omega
    | (split_ifs <;> omega)
    | (simp [eq_comm] <;> omega)


/-! ### Claim C1 -/

/-- C1: with TRAIN set, the training loop runs exactly EPOCHS epochs, the
epoch counter taking every value 0,...,EPOCHS-1 exactly once in increasing
order (the segment keys are precisely List.range EPOCHS), and every
optimize_parameters call of the whole run happens inside one of those
epoch segments. -/
theorem C1_training_runs_configured_epochs (c : Config) (env : Env) (hT : c.TRAIN = true) :
    (trainSegs c env).map Prod.fst = List.range c.EPOCHS ∧
    List.count Event.optimize (mainTrace c env) =
      List.count Event.optimize ((trainSegs c env).flatMap Prod.snd) := by
  refine ⟨epochLoop_map_fst _ _, ?_⟩
  by_cases h2 : c.TEST = true <;> by_cases h3 : c.EXPORT_MODEL = true <;>
    simp [mainTrace_eq, hT, h2, h3, trainTrace, List.count_append, List.count_cons,
      List.count_eq_zero.mpr (optimize_not_mem_dirSetup c env),
      List.count_eq_zero.mpr (optimize_not_mem_trainFinal c),
      List.count_eq_zero.mpr (optimize_not_mem_testTrace c env),
      List.count_eq_zero.mpr (optimize_not_mem_exportTrace c env)]

theorem C1_training_runs_configured_epochs_witness :
    defaultConfig.TRAIN = true ∧
    ((trainSegs defaultConfig env0).map Prod.fst = List.range defaultConfig.EPOCHS ∧
     List.count Event.optimize (mainTrace defaultConfig env0) =
       List.count Event.optimize ((trainSegs defaultConfig env0).flatMap Prod.snd)) :=
  ⟨rfl, C1_training_runs_configured_epochs defaultConfig env0 rfl⟩

/-! ### Claim C3 -/

/-- C3: with TRAIN set, the train model is constructed with
n_epochs = EPOCHS/2 and n_epochs_decay = EPOCHS/2 (the two equal phases sum
to EPOCHS), update_learning_rate is called exactly once at the start of
every epoch except epoch 0, and exactly EPOCHS-1 times over the whole
run. -/
theorem C3_lr_phase_switching (c : Config) (env : Env) (hT : c.TRAIN = true) :
    Event.constructModel (CKPT_DIR c) c.MODEL_NAME true (halfEpochs c) (halfEpochs c) ∈
      mainTrace c env ∧
    halfEpochs c + halfEpochs c = (c.EPOCHS : ℚ) ∧
    (∀ e evs, (e, evs) ∈ trainSegs c env →
      (List.count Event.updateLR evs = if e = 0 then 0 else 1) ∧
      (e ≠ 0 → evs.head? = some Event.updateLR)) ∧
    List.count Event.updateLR (mainTrace c env) = c.EPOCHS - 1 := by
  have hseg : List.count Event.updateLR ((trainSegs c env).flatMap Prod.snd) = c.EPOCHS - 1 := by
    rw [trainSegs,
      count_flat_epochLoop (fun e => if e = 0 then 0 else 1)
        (count_updateLR_epochBody c (trainSamples env)),
      sum_range_one_sub]
  refine ⟨?_, ?_, ?_, ?_⟩
  · have h1 : Event.constructModel (CKPT_DIR c) c.MODEL_NAME true (halfEpochs c) (halfEpochs c) ∈
        trainTrace c env := by simp [trainTrace]
    rw [mainTrace_eq]
    exact List.mem_append_left _ (List.mem_append_left _
      (List.mem_append_right _ (by simp [hT, h1])))
  · rw [halfEpochs]; ring
  · intro e evs hmem
    obtain ⟨-, t2, h2⟩ := epochLoop_mem_char _ _ _ hmem
    simp only at h2
    subst h2
    refine ⟨count_updateLR_epochBody c _ e t2, fun he => ?_⟩
    simp [epochBody, he]
  · by_cases h2 : c.TEST = true <;> by_cases h3 : c.EXPORT_MODEL = true <;>
      simp [mainTrace_eq, hT, h2, h3, trainTrace, List.count_append, List.count_cons, hseg,
        List.count_eq_zero.mpr (updateLR_not_mem_dirSetup c env),
        List.count_eq_zero.mpr (updateLR_not_mem_trainFinal c),
        List.count_eq_zero.mpr (updateLR_not_mem_testTrace c env),
        List.count_eq_zero.mpr (updateLR_not_mem_exportTrace c env)]

theorem C3_lr_phase_switching_witness :
    defaultConfig.TRAIN = true ∧
    Event.constructModel (CKPT_DIR defaultConfig) defaultConfig.MODEL_NAME true
      (halfEpochs defaultConfig) (halfEpochs defaultConfig) ∈ mainTrace defaultConfig env0 ∧
    halfEpochs defaultConfig + halfEpochs defaultConfig = (defaultConfig.EPOCHS : ℚ) ∧
    List.count Event.updateLR (mainTrace defaultConfig env0) = defaultConfig.EPOCHS - 1 :=
  ⟨rfl, (C3_lr_phase_switching defaultConfig env0 rfl).1,
    (C3_lr_phase_switching defaultConfig env0 rfl).2.1,
    (C3_lr_phase_switching defaultConfig env0 rfl).2.2.2⟩


/-! ### Claim C2 -/

/-- C2: with TRAIN and SAVE_CKPTS set, inside the epoch loop a checkpoint
(save_network with the epoch index) is saved in exactly the epochs whose
index is an exact multiple of CKPT_FREQ, at the end of the epoch (after
every optimize step of the epoch), and in no other epoch; when
SAVE_IMG_CKPT is also set each such checkpoint is accompanied by a test
image at TEST_DIR/epoch_<epoch>.jpg. -/
theorem C2_checkpoint_cadence (c : Config) (env : Env) (hT : c.TRAIN = true)
    (hS : c.SAVE_CKPTS = true) (hF : 0 < c.CKPT_FREQ) :
    ∀ e evs, (e, evs) ∈ trainSegs c env →
      ((Event.saveNetwork e ∈ evs) ↔ c.CKPT_FREQ ∣ e) ∧
      (∀ x, Event.saveNetwork x ∈ evs → x = e) ∧
      (c.CKPT_FREQ ∣ e → ∃ A B, evs = A ++ Event.saveNetwork e :: B ∧ Event.optimize ∉ B) ∧
      (c.SAVE_IMG_CKPT = true → c.CKPT_FREQ ∣ e →
        Event.saveVisuals (epochImgPath c e) ∈ evs) := by
  intro e evs hmem
  obtain ⟨-, t2, h2⟩ := epochLoop_mem_char _ _ _ hmem
  simp only at h2
  subst h2
  have hcount : ∀ x, List.count (Event.saveNetwork x) (epochBody c (trainSamples env) e t2).1 =
      if x = e ∧ c.SAVE_CKPTS = true ∧ e % c.CKPT_FREQ = 0 then 1 else 0 :=
    fun x => count_saveNetwork_epochBody c _ x e t2
  refine ⟨?_, ?_, ?_, ?_⟩
  · rw [Nat.dvd_iff_mod_eq_zero]
    constructor
    · intro hm
      by_contra hmod
      have h0 := hcount e
      rw [if_neg (by tauto)] at h0
      exact (List.count_eq_zero.mp h0) hm
    · intro hmod
      simp [epochBody, hS, hmod, List.mem_append]
  · intro x hm
    by_contra hx
    have h0 := hcount x
    rw [if_neg (by tauto)] at h0
    exact (List.count_eq_zero.mp h0) hm
  · intro hdvd
    have hmod : e % c.CKPT_FREQ = 0 := Nat.dvd_iff_mod_eq_zero.mp hdvd
    refine ⟨(if e ≠ 0 then [Event.updateLR] else []) ++ (batchLoop c (trainSamples env) t2).1,
      (if c.SAVE_IMG_CKPT = true then
        [Event.getVisuals, Event.saveVisuals (epochImgPath c e)] else []) ++
        [Event.printEndEpoch], ?_, ?_⟩
    · simp [epochBody, hS, hmod, List.append_assoc]
    · by_cases hI : c.SAVE_IMG_CKPT = true <;> simp [hI]
  · intro hI hdvd
    have hmod : e % c.CKPT_FREQ = 0 := Nat.dvd_iff_mod_eq_zero.mp hdvd
    simp [epochBody, hS, hmod, hI, List.mem_append]

theorem C2_checkpoint_cadence_witness :
    (defaultConfig.TRAIN = true ∧ defaultConfig.SAVE_CKPTS = true ∧
      0 < defaultConfig.CKPT_FREQ) ∧
    ((Event.saveNetwork 2 ∈ ((trainSegs defaultConfig env0).getD 2 (0, [])).2) ↔
      defaultConfig.CKPT_FREQ ∣ 2) :=
  ⟨⟨rfl, rfl, by decide⟩,
    (C2_checkpoint_cadence defaultConfig env0 rfl rfl (by decide) 2
      ((trainSegs defaultConfig env0).getD 2 (0, [])).2 (by decide)).1⟩


/-! ### Claim C4 -/

lemma testLoop_filterMap_inputOf (c : Config) :
    ∀ (l : List Sample) (i : Nat),
    (testLoop c i l).filterMap inputOf = l.take (c.TEST_SAMPLE - i) := by
  intro l
  induction l with
  | nil => intro i; simp [testLoop]
  | cons s rest ih =>
    intro i
    by_cases hi : i < c.TEST_SAMPLE
    · have h1 : c.TEST_SAMPLE - i = (c.TEST_SAMPLE - (i + 1)) + 1 := by omega
      simp [testLoop, hi, inputOf, ih, h1]
    · have h1 : c.TEST_SAMPLE - i = 0 := by omega
      simp [testLoop, hi, h1]

lemma testInputs_eq (c : Config) (env : Env) :
    testInputs c env = (env.testFiles.take c.TEST_SAMPLE).map (fun n => Sample.mk n false) := by
  simp [testInputs, testTrace, List.filterMap_append, inputOf, testLoop_filterMap_inputOf,
    testSamples, dataLoader, List.map_take]

/-- C4: test sampling is deterministic.  The test loader is created with
shuffle=False, flip=False and num_workers=0, and the sequence of samples
fed to the model in the test pass is exactly the first TEST_SAMPLE
dataset entries in directory order, unflipped — independent of the
data-loader randomness and filesystem state of the run.  Two runs over
the same dataset therefore feed identical input sequences. -/
theorem C4_test_sampling_deterministic (c : Config) (e1 e2 : Env)
    (h : e1.testFiles = e2.testFiles) :
    testInputs c e1 = testInputs c e2 ∧
    testInputs c e1 = (e1.testFiles.take c.TEST_SAMPLE).map (fun n => Sample.mk n false) ∧
    Event.createLoader "facades/AB" "test" false c.BATCH_SIZE false 0 ∈ testTrace c e1 := by
  refine ⟨?_, testInputs_eq c e1, by simp [testTrace]⟩
  rw [testInputs_eq, testInputs_eq, h]

theorem C4_test_sampling_deterministic_witness :
    env0.testFiles = env1.testFiles ∧
    testInputs defaultConfig env0 = testInputs defaultConfig env1 :=
  ⟨rfl, (C4_test_sampling_deterministic defaultConfig env0 env1 rfl).1⟩


/-! ### Claim C5 -/

lemma pairwise_of_total {α : Type} {R : α → α → Prop} (h : ∀ a b, R a b) :
    ∀ l : List α, l.Pairwise R := by
  intro l
  induction l with
  | nil => exact List.Pairwise.nil
  | cons a t ih => exact List.Pairwise.cons (fun b _ => h a b) ih

lemma pairwise_tagged (m : Mode) (l : List Event) :
    List.Pairwise (fun a b => Mode.idx a.1 ≤ Mode.idx b.1) (l.map (fun e => (m, e))) :=
  List.pairwise_map.mpr (pairwise_of_total (fun _ _ => le_rfl) l)

lemma pairwise_tagged_if (m : Mode) (b : Bool) (l : List Event) :
    List.Pairwise (fun a b => Mode.idx a.1 ≤ Mode.idx b.1)
      (if b = true then l.map (fun e => (m, e)) else []) := by
  split
  · exact pairwise_tagged m l
  · exact List.Pairwise.nil

lemma mem_mainTagged_cases {c : Config} {env : Env} {p : Mode × Event}
    (hp : p ∈ mainTagged c env) :
    (p.1 = Mode.dirs ∧ p.2 ∈ dirSetupTrace c env) ∨
    (p.1 = Mode.train ∧ c.TRAIN = true ∧ p.2 ∈ trainTrace c env) ∨
    (p.1 = Mode.test ∧ c.TEST = true ∧ p.2 ∈ testTrace c env) ∨
    (p.1 = Mode.export ∧ c.EXPORT_MODEL = true ∧ p.2 ∈ exportTrace c env) := by
  unfold mainTagged at hp
  rcases List.mem_append.mp hp with hp | hp
  · rcases List.mem_append.mp hp with hp | hp
    · rcases List.mem_append.mp hp with hp | hp
      · obtain ⟨e, he, rfl⟩ := List.mem_map.mp hp
        exact Or.inl ⟨rfl, he⟩
      · split at hp
        next hT =>
          obtain ⟨e, he, rfl⟩ := List.mem_map.mp hp
          exact Or.inr (Or.inl ⟨rfl, hT, he⟩)
        next => simp at hp
    · split at hp
      next hT =>
        obtain ⟨e, he, rfl⟩ := List.mem_map.mp hp
        exact Or.inr (Or.inr (Or.inl ⟨rfl, hT, he⟩))
      next => simp at hp
  · split at hp
    next hT =>
      obtain ⟨e, he, rfl⟩ := List.mem_map.mp hp
      exact Or.inr (Or.inr (Or.inr ⟨rfl, hT, he⟩))
    next => simp at hp

lemma mem_mainTrace_cases {c : Config} {env : Env} {ev : Event}
    (h : ev ∈ mainTrace c env) :
    ev ∈ dirSetupTrace c env ∨
    (c.TRAIN = true ∧ ev ∈ trainTrace c env) ∨
    (c.TEST = true ∧ ev ∈ testTrace c env) ∨
    (c.EXPORT_MODEL = true ∧ ev ∈ exportTrace c env) := by
  obtain ⟨p, hp, rfl⟩ := List.mem_map.mp h
  rcases mem_mainTagged_cases hp with ⟨-, h⟩ | ⟨-, hT, h⟩ | ⟨-, hT, h⟩ | ⟨-, hT, h⟩ <;> tauto

/-- C5: the three modes run strictly in source order.  Along the tagged
run trace the phase index is monotonically non-decreasing (module setup,
then all training work, then all test work, then all export work), each
pass contributes events exactly when its flag is set, and the training
block includes the end-of-training plot. -/
theorem C5_modes_sequential (c : Config) (env : Env) :
    List.Pairwise (fun a b => Mode.idx a.1 ≤ Mode.idx b.1) (mainTagged c env) ∧
    ((∃ e, (Mode.train, e) ∈ mainTagged c env) ↔ c.TRAIN = true) ∧
    ((∃ e, (Mode.test, e) ∈ mainTagged c env) ↔ c.TEST = true) ∧
    ((∃ e, (Mode.export, e) ∈ mainTagged c env) ↔ c.EXPORT_MODEL = true) ∧
    (c.TRAIN = true → (Mode.train, Event.plotVisuals) ∈ mainTagged c env) := by
  have hA : ∀ p ∈ (dirSetupTrace c env).map (fun e => (Mode.dirs, e)), p.1 = Mode.dirs := by
    intro p hp; obtain ⟨e, -, rfl⟩ := List.mem_map.mp hp; rfl
  have hB : ∀ p ∈ (if c.TRAIN = true then (trainTrace c env).map (fun e => (Mode.train, e))
      else []), p.1 = Mode.train := by
    intro p hp; split at hp
    · obtain ⟨e, -, rfl⟩ := List.mem_map.mp hp; rfl
    · simp at hp
  have hC : ∀ p ∈ (if c.TEST = true then (testTrace c env).map (fun e => (Mode.test, e))
      else []), p.1 = Mode.test := by
    intro p hp; split at hp
    · obtain ⟨e, -, rfl⟩ := List.mem_map.mp hp; rfl
    · simp at hp
  have hD : ∀ p ∈ (if c.EXPORT_MODEL = true then
      (exportTrace c env).map (fun e => (Mode.export, e)) else []), p.1 = Mode.export := by
    intro p hp; split at hp
    · obtain ⟨e, -, rfl⟩ := List.mem_map.mp hp; rfl
    · simp at hp
  refine ⟨?_, ?_, ?_, ?_, ?_⟩
  · unfold mainTagged
    refine List.pairwise_append.mpr ⟨List.pairwise_append.mpr
      ⟨List.pairwise_append.mpr ⟨pairwise_tagged _ _, pairwise_tagged_if _ _ _, ?_⟩,
        pairwise_tagged_if _ _ _, ?_⟩, pairwise_tagged_if _ _ _, ?_⟩
    · intro a ha b hb
      rw [hA a ha, hB b hb]
      decide
    · intro a ha b hb
      rcases List.mem_append.mp ha with ha | ha
      · rw [hA a ha, hC b hb]; decide
      · rw [hB a ha, hC b hb]; decide
    · intro a ha b hb
      rcases List.mem_append.mp ha with ha | ha
      · rcases List.mem_append.mp ha with ha | ha
        · rw [hA a ha, hD b hb]; decide
        · rw [hB a ha, hD b hb]; decide
      · rw [hC a ha, hD b hb]; decide
  · constructor
    · rintro ⟨e, he⟩
      rcases mem_mainTagged_cases he with ⟨h1, -⟩ | ⟨-, hT, -⟩ | ⟨h1, -⟩ | ⟨h1, -⟩ <;>
        first | exact hT | simp at h1
    · intro hT
      have h1 : Event.setup ∈ trainTrace c env := by simp [trainTrace]
      refine ⟨Event.setup, ?_⟩
      unfold mainTagged
      exact List.mem_append_left _ (List.mem_append_left _ (List.mem_append_right _
        (by rw [hT]; exact List.mem_map_of_mem _ h1)))
  · constructor
    · rintro ⟨e, he⟩
      rcases mem_mainTagged_cases he with ⟨h1, -⟩ | ⟨h1, -⟩ | ⟨-, hT, -⟩ | ⟨h1, -⟩ <;>
        first | exact hT | simp at h1
    · intro hT
      have h1 : Event.setup ∈ testTrace c env := by simp [testTrace]
      refine ⟨Event.setup, ?_⟩
      unfold mainTagged
      exact List.mem_append_left _ (List.mem_append_right _
        (by rw [hT]; exact List.mem_map_of_mem _ h1))
  · constructor
    · rintro ⟨e, he⟩
      rcases mem_mainTagged_cases he with ⟨h1, -⟩ | ⟨h1, -⟩ | ⟨h1, -⟩ | ⟨-, hT, -⟩ <;>
        first | exact hT | simp at h1
    · intro hT
      have h1 : Event.setup ∈ exportTrace c env := by simp [exportTrace]
      refine ⟨Event.setup, ?_⟩
      unfold mainTagged
      exact List.mem_append_right _ (by rw [hT]; exact List.mem_map_of_mem _ h1)
  · intro hT
    have h1 : Event.plotVisuals ∈ trainTrace c env := by
      simp [trainTrace, trainFinal]
    unfold mainTagged
    exact List.mem_append_left _ (List.mem_append_left _ (List.mem_append_right _
      (by rw [hT]; exact List.mem_map_of_mem _ h1)))


/-! ### Claim C6 -/

/-- C6: with TEST set the test model is constructed in non-training mode,
put into eval mode, and load_networks(0) is called exactly once — before
any test sample is fed to the model; with EXPORT_MODEL set the export
pass loads the same fixed checkpoint index 0, exactly once. -/
theorem C6_fixed_checkpoint_load (c : Config) (env : Env) (hT : c.TEST = true)
    (hE : c.EXPORT_MODEL = true) :
    (testTrace c env)[1]? = some (Event.constructModel (CKPT_DIR c) c.MODEL_NAME false
      (halfEpochs c) (halfEpochs c)) ∧
    (testTrace c env)[3]? = some Event.evalMode ∧
    (testTrace c env)[4]? = some (Event.loadNetworks 0) ∧
    List.count (Event.loadNetworks 0) (testTrace c env) = 1 ∧
    (∀ n, Event.loadNetworks n ∈ testTrace c env → n = 0) ∧
    (∀ i s, (testTrace c env)[i]? = some (Event.setInput s) → 4 < i) ∧
    List.count (Event.loadNetworks 0) (exportTrace c env) = 1 ∧
    (∀ n, Event.loadNetworks n ∈ exportTrace c env → n = 0) := by
  have h0 : Event.loadNetworks 0 ∉ testLoop c 0 (testSamples env) :=
    not_mem_testLoop _ _ (by simp) (by simp) (by simp) (by simp)
  refine ⟨by simp [testTrace], by simp [testTrace], by simp [testTrace], ?_, ?_, ?_, ?_, ?_⟩
  · simp [testTrace, List.count_append, List.count_cons, List.count_eq_zero.mpr h0]
  · intro n hn
    rcases mem_testTrace hn with h | h | h | h | h | h
    any_goals simp at h
    · exact h
    · exact absurd h (not_mem_testLoop _ _ (by simp) (by simp) (by simp) (by simp))
  · intro i s h
    by_contra hlt
    push_neg at hlt
    interval_cases i <;> simp [testTrace] at h
  · by_cases hd : env.dirExists "exported" = true <;>
      simp [exportTrace, hd, List.count_append, List.count_cons]
  · intro n hn
    rcases mem_exportTrace hn with h | h | h | h | h | h | h | h
    any_goals simp at h
    exact h

theorem C6_fixed_checkpoint_load_witness :
    (defaultConfig.TEST = true ∧ defaultConfig.EXPORT_MODEL = true) ∧
    (testTrace defaultConfig env0)[4]? = some (Event.loadNetworks 0) ∧
    List.count (Event.loadNetworks 0) (testTrace defaultConfig env0) = 1 ∧
    List.count (Event.loadNetworks 0) (exportTrace defaultConfig env0) = 1 :=
  ⟨⟨rfl, rfl⟩,
    (C6_fixed_checkpoint_load defaultConfig env0 rfl rfl).2.2.1,
    (C6_fixed_checkpoint_load defaultConfig env0 rfl rfl).2.2.2.1,
    (C6_fixed_checkpoint_load defaultConfig env0 rfl rfl).2.2.2.2.2.2.1⟩


/-! ### Claim C7 -/

lemma execCalls_first_fail (oracle : Nat → Option String) :
    ∀ (l : List Event) (base k : Nat) (err : String),
      k < l.length →
      oracle (base + k) = some err →
      (∀ j, j < k → oracle (base + j) = none) →
      execCalls oracle l base = (l.take k, some err) := by
  intro l
  induction l with
  | nil => intro base k err hk _ _; simp at hk
  | cons e rest ih =>
    intro base k err hk hf hmin
    match k with
    | 0 =>
      simp only [Nat.add_zero] at hf
      simp [execCalls, hf]
    | k + 1 =>
      have h0 : oracle base = none := by simpa using hmin 0 (by omega)
      have hf2 : oracle (base + 1 + k) = some err := by
        have he : base + 1 + k = base + (k + 1) := by omega
        rw [he]; exact hf
      have hmin2 : ∀ j, j < k → oracle (base + 1 + j) = none := by
        intro j hj
        have he : base + 1 + j = base + (j + 1) := by omega
        rw [he]; exact hmin (j + 1) (by omega)
      have hk2 : k < rest.length := by simpa using hk
      simp [execCalls, h0, ih (base + 1) k err hk2 hf2 hmin2]

/-- C7: there is no exception handling anywhere in the script, so when a
delegated call raises, the run terminates with exactly that exception and
performs none of the delegated calls that follow it: the completed calls
are precisely the strict prefix of the program-order trace before the
first failing call. -/
theorem C7_exceptions_propagate (c : Config) (env : Env) (oracle : Nat → Option String)
    (k : Nat) (err : String)
    (hk : k < (mainTrace c env).length)
    (hf : oracle k = some err)
    (hmin : ∀ j, j < k → oracle j = none) :
    runExc c env oracle = ((mainTrace c env).take k, some err) ∧
    (runExc c env oracle).1.length = k := by
  have h := execCalls_first_fail oracle (mainTrace c env) 0 k err hk
    (by simpa using hf) (by intro j hj; simpa using hmin j hj)
  refine ⟨h, ?_⟩
  have h2 : runExc c env oracle = ((mainTrace c env).take k, some err) := h
  rw [h2]
  simp [List.length_take]
  omega

set_option maxRecDepth 100000 in
theorem C7_exceptions_propagate_witness :
    (3 < (mainTrace defaultConfig env0).length ∧ oracle0 3 = some "RuntimeError") ∧
    runExc defaultConfig env0 oracle0 =
      ((mainTrace defaultConfig env0).take 3, some "RuntimeError") :=
  ⟨⟨by decide, rfl⟩,
    (C7_exceptions_propagate defaultConfig env0 oracle0 3 "RuntimeError" (by decide) rfl
      (by decide)).1⟩


/-! ### Claim C8 -/

lemma append_ne_append_of_head_ne {c1 c2 : Char} {t1 t2 : List Char}
    (a b m n : String) (ha : a.data = c1 :: t1) (hb : b.data = c2 :: t2)
    (hc : c1 ≠ c2) : a ++ m ≠ b ++ n := by
  intro h
  have h2 := congrArg String.data h
  rw [String.data_append, String.data_append, ha, hb] at h2
  simp only [List.cons_append, List.cons.injEq] at h2
  exact hc h2.1

lemma append_ne_of_head_ne {c1 c2 : Char} {t1 t2 : List Char}
    (a m b : String) (ha : a.data = c1 :: t1) (hb : b.data = c2 :: t2)
    (hc : c1 ≠ c2) : a ++ m ≠ b := by
  intro h
  have h2 := congrArg String.data h
  rw [String.data_append, ha, hb] at h2
  simp only [List.cons_append, List.cons.injEq] at h2
  exact hc h2.1

lemma ckpt_dir_ne_log_dir (c : Config) : CKPT_DIR c ≠ LOG_DIR c :=
  append_ne_append_of_head_ne "checkpoints/" "runs/" _ _ rfl rfl (by decide)

lemma ckpt_dir_ne_test_dir (c : Config) : CKPT_DIR c ≠ TEST_DIR c :=
  append_ne_append_of_head_ne "checkpoints/" "test/" _ _ rfl rfl (by decide)

lemma log_dir_ne_test_dir (c : Config) : LOG_DIR c ≠ TEST_DIR c :=
  append_ne_append_of_head_ne "runs/" "test/" _ _ rfl rfl (by decide)

lemma ckpt_dir_ne_exported (c : Config) : CKPT_DIR c ≠ "exported" :=
  append_ne_of_head_ne "checkpoints/" _ "exported" rfl rfl (by decide)

lemma log_dir_ne_exported (c : Config) : LOG_DIR c ≠ "exported" :=
  append_ne_of_head_ne "runs/" _ "exported" rfl rfl (by decide)

lemma test_dir_ne_exported (c : Config) : TEST_DIR c ≠ "exported" :=
  append_ne_of_head_ne "test/" _ "exported" rfl rfl (by decide)

lemma not_mem_dirSetup_gen {c : Config} {env : Env} {ev : Event}
    (h1 : ∀ p, ev ≠ .makedirs p) (h2 : ∀ d, ev ≠ .createWriter d) :
    ev ∉ dirSetupTrace c env := by
  intro h
  rcases mem_dirSetup h with ⟨hx, -⟩ | ⟨hx, -⟩ | ⟨hx, -⟩ | ⟨hx, -⟩
  exacts [h1 _ hx, h1 _ hx, h1 _ hx, h2 _ hx]

lemma not_mem_trainTrace_gen {c : Config} {env : Env} {ev : Event}
    (h1 : ∀ a b fl bs sh nw, ev ≠ .createLoader a b fl bs sh nw)
    (h2 : ∀ d n b q1 q2, ev ≠ .constructModel d n b q1 q2)
    (h3 : ev ≠ .setup) (h4 : ev ≠ .updateLR) (h5 : ∀ s, ev ≠ .setInput s)
    (h6 : ev ≠ .optimize) (h7 : ev ≠ .printLosses) (h8 : ev ≠ .writeLog)
    (h9 : ∀ x, ev ≠ .saveNetwork x) (h10 : ev ≠ .getVisuals)
    (h11 : ∀ p, ev ≠ .saveVisuals p) (h12 : ev ≠ .printEndEpoch)
    (h13 : ev ≠ .plotVisuals) :
    ev ∉ trainTrace c env := by
  intro h
  rcases mem_trainTrace h with hh | hh | hh | hh | hh
  · exact h1 _ _ _ _ _ _ hh
  · exact h2 _ _ _ _ _ hh
  · exact h3 hh
  · obtain ⟨e, -, ti, hm⟩ := mem_segsFlat hh
    rcases mem_epochBody hm with hx | ⟨s, hx⟩ | hx | hx | hx | hx | hx | hx | hx
    exacts [h4 hx, h5 s hx, h6 hx, h7 hx, h8 hx, h9 e hx, h10 hx, h11 _ hx, h12 hx]
  · rcases mem_trainFinal hh with ⟨hx, -⟩ | ⟨hx, -⟩ | hx | hx
    exacts [h9 _ hx, h11 _ hx, h10 hx, h13 hx]

lemma not_mem_testTrace_gen {c : Config} {env : Env} {ev : Event}
    (h1 : ∀ a b fl bs sh nw, ev ≠ .createLoader a b fl bs sh nw)
    (h2 : ∀ d n b q1 q2, ev ≠ .constructModel d n b q1 q2)
    (h3 : ev ≠ .setup) (h4 : ev ≠ .evalMode) (h5 : ∀ x, ev ≠ .loadNetworks x)
    (h6 : ∀ s, ev ≠ .setInput s) (h7 : ev ≠ .modelTest) (h8 : ev ≠ .getVisuals)
    (h9 : ∀ p, ev ≠ .saveVisuals p) :
    ev ∉ testTrace c env := by
  intro h
  rcases mem_testTrace h with hh | hh | hh | hh | hh | hh
  · exact h1 _ _ _ _ _ _ hh
  · exact h2 _ _ _ _ _ hh
  · exact h3 hh
  · exact h4 hh
  · exact h5 _ hh
  · exact not_mem_testLoop _ _ h6 h7 h8 (fun j => h9 _) hh

lemma not_mem_exportTrace_gen {c : Config} {env : Env} {ev : Event}
    (h1 : ev ≠ .randn)
    (h2 : ∀ d n b q1 q2, ev ≠ .constructModel d n b q1 q2)
    (h3 : ev ≠ .setup) (h4 : ev ≠ .evalMode) (h5 : ∀ x, ev ≠ .loadNetworks x)
    (h6 : ∀ p, ev ≠ .makedirs p) (h7 : ∀ p, ev ≠ .openFile p)
    (h8 : ∀ p, ev ≠ .exportOnnx p) :
    ev ∉ exportTrace c env := by
  intro h
  rcases mem_exportTrace h with hh | hh | hh | hh | hh | hh | hh | hh
  exacts [h1 hh, h2 _ _ _ _ _ hh, h3 hh, h4 hh, h5 _ hh, h6 _ hh, h7 _ hh, h8 _ hh]

lemma makedirs_mem_cases {c : Config} {env : Env} {p : String}
    (h : Event.makedirs p ∈ mainTrace c env) :
    (p = CKPT_DIR c ∧ c.SAVE_CKPTS = true) ∨
    (p = LOG_DIR c ∧ c.WRITE_LOGS = true) ∨
    (p = TEST_DIR c ∧ c.SAVE_IMG_CKPT = true) ∨
    (p = "exported" ∧ c.EXPORT_MODEL = true) := by
  rcases mem_mainTrace_cases h with h | ⟨hT, h⟩ | ⟨hT, h⟩ | ⟨hT, h⟩
  · rcases mem_dirSetup h with ⟨h1, h2⟩ | ⟨h1, h2⟩ | ⟨h1, h2⟩ | ⟨h1, h2⟩ <;> simp at h1 <;>
      tauto
  · exact absurd h (not_mem_trainTrace_gen (by simp) (by simp) (by simp) (by simp) (by simp)
      (by simp) (by simp) (by simp) (by simp) (by simp) (by simp) (by simp) (by simp))
  · exact absurd h (not_mem_testTrace_gen (by simp) (by simp) (by simp) (by simp) (by simp)
      (by simp) (by simp) (by simp) (by simp))
  · rcases mem_exportTrace h with h1 | h1 | h1 | h1 | h1 | h1 | h1 | h1 <;>
      first
      | (simp at h1; exact Or.inr (Or.inr (Or.inr ⟨h1, hT⟩)))
      | simp at h1

lemma createWriter_mem_cases {c : Config} {env : Env} {d : String}
    (h : Event.createWriter d ∈ mainTrace c env) :
    d = LOG_DIR c ∧ c.WRITE_LOGS = true := by
  rcases mem_mainTrace_cases h with h | ⟨-, h⟩ | ⟨-, h⟩ | ⟨-, h⟩
  · rcases mem_dirSetup h with ⟨h1, h2⟩ | ⟨h1, h2⟩ | ⟨h1, h2⟩ | ⟨h1, h2⟩ <;> simp at h1 <;>
      tauto
  · exact absurd h (not_mem_trainTrace_gen (by simp) (by simp) (by simp) (by simp) (by simp)
      (by simp) (by simp) (by simp) (by simp) (by simp) (by simp) (by simp) (by simp))
  · exact absurd h (not_mem_testTrace_gen (by simp) (by simp) (by simp) (by simp) (by simp)
      (by simp) (by simp) (by simp) (by simp))
  · exact absurd h (not_mem_exportTrace_gen (by simp) (by simp) (by simp) (by simp) (by simp)
      (by simp) (by simp) (by simp))

lemma constructModel_mem_cases {c : Config} {env : Env} {d n : String} {b : Bool}
    {q1 q2 : ℚ} (h : Event.constructModel d n b q1 q2 ∈ mainTrace c env) :
    d = CKPT_DIR c ∧ n = c.MODEL_NAME := by
  rcases mem_mainTrace_cases h with h | ⟨-, h⟩ | ⟨-, h⟩ | ⟨-, h⟩
  · exact absurd h (not_mem_dirSetup_gen (by simp) (by simp))
  · rcases mem_trainTrace h with h1 | h1 | h1 | h1 | h1
    · simp at h1
    · simp at h1; tauto
    · simp at h1
    · obtain ⟨e, -, ti, hm⟩ := mem_segsFlat h1
      rcases mem_epochBody hm with hx | ⟨s, hx⟩ | hx | hx | hx | hx | hx | hx | hx <;>
        simp at hx
    · rcases mem_trainFinal h1 with ⟨hx, -⟩ | ⟨hx, -⟩ | hx | hx <;> simp at hx
  · rcases mem_testTrace h with h1 | h1 | h1 | h1 | h1 | h1
    · simp at h1
    · simp at h1; tauto
    · simp at h1
    · simp at h1
    · simp at h1
    · exact absurd h1 (not_mem_testLoop _ _ (by simp) (by simp) (by simp) (by simp))
  · rcases mem_exportTrace h with h1 | h1 | h1 | h1 | h1 | h1 | h1 | h1 <;>
      first
      | (simp at h1; tauto)
      | simp at h1

lemma exportOnnx_mem_cases {c : Config} {env : Env} {p : String}
    (h : Event.exportOnnx p ∈ mainTrace c env) :
    p = exportPath c ∧ c.EXPORT_MODEL = true := by
  rcases mem_mainTrace_cases h with h | ⟨-, h⟩ | ⟨-, h⟩ | ⟨hT, h⟩
  · exact absurd h (not_mem_dirSetup_gen (by simp) (by simp))
  · exact absurd h (not_mem_trainTrace_gen (by simp) (by simp) (by simp) (by simp) (by simp)
      (by simp) (by simp) (by simp) (by simp) (by simp) (by simp) (by simp) (by simp))
  · exact absurd h (not_mem_testTrace_gen (by simp) (by simp) (by simp) (by simp) (by simp)
      (by simp) (by simp) (by simp) (by simp))
  · rcases mem_exportTrace h with h1 | h1 | h1 | h1 | h1 | h1 | h1 | h1 <;>
      first
      | (simp at h1; exact ⟨h1, hT⟩)
      | simp at h1

lemma saveVisuals_mem_cases {c : Config} {env : Env} {p : String}
    (h : Event.saveVisuals p ∈ mainTrace c env) :
    (∃ e, p = epochImgPath c e) ∨ (∃ i, p = testImgPath c i) := by
  rcases mem_mainTrace_cases h with h | ⟨-, h⟩ | ⟨-, h⟩ | ⟨-, h⟩
  · exact absurd h (not_mem_dirSetup_gen (by simp) (by simp))
  · rcases mem_trainTrace h with h1 | h1 | h1 | h1 | h1
    · simp at h1
    · simp at h1
    · simp at h1
    · obtain ⟨e, -, ti, hm⟩ := mem_segsFlat h1
      rcases mem_epochBody hm with hx | ⟨s, hx⟩ | hx | hx | hx | hx | hx | hx | hx <;>
        first
        | (simp only [Event.saveVisuals.injEq] at hx; exact Or.inl ⟨e, hx⟩)
        | simp at hx
    · rcases mem_trainFinal h1 with ⟨hx, -⟩ | ⟨hx, -⟩ | hx | hx <;>
        first
        | (simp only [Event.saveVisuals.injEq] at hx; exact Or.inl ⟨c.EPOCHS - 1, hx⟩)
        | simp at hx
  · rcases mem_testTrace h with h1 | h1 | h1 | h1 | h1 | h1
    any_goals simp at h1
    rcases mem_testLoop _ _ h1 with ⟨s, hx⟩ | hx | hx | ⟨j, hx⟩ <;>
      first
      | (simp only [Event.saveVisuals.injEq] at hx; exact Or.inr ⟨j, hx⟩)
      | simp at hx
  · exact absurd h (not_mem_exportTrace_gen (by simp) (by simp) (by simp) (by simp) (by simp)
      (by simp) (by simp) (by simp))

/-- C8: persisted outputs go to per-run locations derived from MODEL_NAME:
checkpoints/<MODEL_NAME> (the directory every model is constructed over),
runs/<MODEL_NAME> (the only SummaryWriter log directory),
test/<MODEL_NAME> (every checkpoint/test image written by a
save_visuals call targets epoch_<e>.jpg or test_<i>.jpg under TEST_DIR),
and exactly one exported model file at exported/<MODEL_NAME>.onnx when
EXPORT_MODEL is set; each output directory is created only when its
corresponding flag is set. -/
theorem C8_output_locations (c : Config) (env : Env) :
    CKPT_DIR c = "checkpoints/" ++ c.MODEL_NAME ∧
    LOG_DIR c = "runs/" ++ c.MODEL_NAME ∧
    TEST_DIR c = "test/" ++ c.MODEL_NAME ∧
    exportPath c = "exported/" ++ c.MODEL_NAME ++ ".onnx" ∧
    (Event.makedirs (CKPT_DIR c) ∈ mainTrace c env → c.SAVE_CKPTS = true) ∧
    (Event.makedirs (LOG_DIR c) ∈ mainTrace c env → c.WRITE_LOGS = true) ∧
    (Event.makedirs (TEST_DIR c) ∈ mainTrace c env → c.SAVE_IMG_CKPT = true) ∧
    (Event.makedirs "exported" ∈ mainTrace c env → c.EXPORT_MODEL = true) ∧
    (∀ d, Event.createWriter d ∈ mainTrace c env → d = LOG_DIR c ∧ c.WRITE_LOGS = true) ∧
    (∀ d n b q1 q2, Event.constructModel d n b q1 q2 ∈ mainTrace c env →
      d = CKPT_DIR c ∧ n = c.MODEL_NAME) ∧
    (c.EXPORT_MODEL = true →
      List.count (Event.exportOnnx (exportPath c)) (mainTrace c env) = 1) ∧
    (∀ p, Event.exportOnnx p ∈ mainTrace c env → p = exportPath c) ∧
    (∀ p, Event.saveVisuals p ∈ mainTrace c env →
      ((∃ e, p = epochImgPath c e) ∨ (∃ i, p = testImgPath c i)) ∧
      (∃ s, p = TEST_DIR c ++ s)) := by
  refine ⟨rfl, rfl, rfl, rfl, ?_, ?_, ?_, ?_, ?_, ?_, ?_, ?_, ?_⟩
  · intro h
    rcases makedirs_mem_cases h with ⟨-, hf⟩ | ⟨he, -⟩ | ⟨he, -⟩ | ⟨he, -⟩
    · exact hf
    · exact absurd he (ckpt_dir_ne_log_dir c)
    · exact absurd he (ckpt_dir_ne_test_dir c)
    · exact absurd he (ckpt_dir_ne_exported c)
  · intro h
    rcases makedirs_mem_cases h with ⟨he, -⟩ | ⟨-, hf⟩ | ⟨he, -⟩ | ⟨he, -⟩
    · exact absurd he.symm (ckpt_dir_ne_log_dir c)
    · exact hf
    · exact absurd he (log_dir_ne_test_dir c)
    · exact absurd he (log_dir_ne_exported c)
  · intro h
    rcases makedirs_mem_cases h with ⟨he, -⟩ | ⟨he, -⟩ | ⟨-, hf⟩ | ⟨he, -⟩
    · exact absurd he.symm (ckpt_dir_ne_test_dir c)
    · exact absurd he.symm (log_dir_ne_test_dir c)
    · exact hf
    · exact absurd he (test_dir_ne_exported c)
  · intro h
    rcases makedirs_mem_cases h with ⟨he, -⟩ | ⟨he, -⟩ | ⟨he, -⟩ | ⟨-, hf⟩
    · exact absurd he.symm (ckpt_dir_ne_exported c)
    · exact absurd he.symm (log_dir_ne_exported c)
    · exact absurd he.symm (test_dir_ne_exported c)
    · exact hf
  · intro d h
    exact createWriter_mem_cases h
  · intro d n b q1 q2 h
    exact constructModel_mem_cases h
  · intro hE
    have hnd : Event.exportOnnx (exportPath c) ∉ dirSetupTrace c env :=
      not_mem_dirSetup_gen (by simp) (by simp)
    have hnt : Event.exportOnnx (exportPath c) ∉ trainTrace c env :=
      not_mem_trainTrace_gen (by simp) (by simp) (by simp) (by simp) (by simp) (by simp)
        (by simp) (by simp) (by simp) (by simp) (by simp) (by simp) (by simp)
    have hns : Event.exportOnnx (exportPath c) ∉ testTrace c env :=
      not_mem_testTrace_gen (by simp) (by simp) (by simp) (by simp) (by simp) (by simp)
        (by simp) (by simp) (by simp)
    have hcnt : List.count (Event.exportOnnx (exportPath c)) (exportTrace c env) = 1 := by
      by_cases hd : env.dirExists "exported" = true <;>
        simp [exportTrace, hd, List.count_append, List.count_cons]
    by_cases h1 : c.TRAIN = true <;> by_cases h2 : c.TEST = true <;>
      simp [mainTrace_eq, hE, h1, h2, List.count_append, hcnt,
        List.count_eq_zero.mpr hnd, List.count_eq_zero.mpr hnt, List.count_eq_zero.mpr hns]
  · intro p h
    exact (exportOnnx_mem_cases h).1
  · intro p h
    refine ⟨saveVisuals_mem_cases h, ?_⟩
    rcases saveVisuals_mem_cases h with ⟨e, rfl⟩ | ⟨i, rfl⟩
    · exact ⟨"/" ++ "epoch_" ++ toString e ++ ".jpg", by
        simp [epochImgPath, String.append_assoc]⟩
    · exact ⟨"/" ++ "test_" ++ toString i ++ ".jpg", by
        simp [testImgPath, String.append_assoc]⟩


/-! ### Claim C9 -/

lemma testLoop_filterMap_saveOf (c : Config) :
    ∀ (l : List Sample) (i : Nat),
    (testLoop c i l).filterMap saveOf =
      (List.range' i (min (c.TEST_SAMPLE - i) l.length)).map (testImgPath c) := by
  intro l
  induction l with
  | nil => intro i; simp [testLoop]
  | cons s rest ih =>
    intro i
    by_cases hi : i < c.TEST_SAMPLE
    · have harr : min (c.TEST_SAMPLE - i) (rest.length + 1) =
          min (c.TEST_SAMPLE - (i + 1)) rest.length + 1 := by omega
      simp only [testLoop, hi, if_true, List.cons_append, List.nil_append, List.length_cons,
        List.filterMap_cons, saveOf, ih, harr, List.range'_succ, List.map_cons]
    · have h1 : c.TEST_SAMPLE - i = 0 := by omega
      simp [testLoop, hi, h1]

lemma count_modelTest_testLoop (c : Config) :
    ∀ (l : List Sample) (i : Nat),
    List.count Event.modelTest (testLoop c i l) = min (c.TEST_SAMPLE - i) l.length := by
  intro l
  induction l with
  | nil => intro i; simp [testLoop]
  | cons s rest ih =>
    intro i
    by_cases hi : i < c.TEST_SAMPLE
    · have harr : min (c.TEST_SAMPLE - i) (rest.length + 1) =
          min (c.TEST_SAMPLE - (i + 1)) rest.length + 1 := by omega
      simp [testLoop, hi, List.count_cons, ih, harr]
    · have h1 : c.TEST_SAMPLE - i = 0 := by omega
      simp [testLoop, hi, h1]

lemma testSaves_eq (c : Config) (env : Env) :
    testSaves c env =
      (List.range (min c.TEST_SAMPLE env.testFiles.length)).map (testImgPath c) := by
  simp [testSaves, testTrace, List.filterMap_append, saveOf, testLoop_filterMap_saveOf,
    testSamples, dataLoader, List.range_eq_range']

/-- C9: with TEST set the test pass writes exactly one image
TEST_DIR/test_<i>.jpg for each index i below both TEST_SAMPLE and the
dataset size, in order, and nothing else: it runs min(TEST_SAMPLE,
dataset size) samples through the model, so at most TEST_SAMPLE test
images are written. -/
theorem C9_test_pass_bounded (c : Config) (env : Env) (hT : c.TEST = true) :
    testSaves c env =
      (List.range (min c.TEST_SAMPLE env.testFiles.length)).map (testImgPath c) ∧
    (testSaves c env).length = min c.TEST_SAMPLE env.testFiles.length ∧
    (testSaves c env).length ≤ c.TEST_SAMPLE ∧
    List.count Event.modelTest (testTrace c env) =
      min c.TEST_SAMPLE env.testFiles.length := by
  refine ⟨testSaves_eq c env, ?_, ?_, ?_⟩
  · rw [testSaves_eq]; simp
  · rw [testSaves_eq]; simp only [List.length_map, List.length_range]; omega
  · simp [testTrace, List.count_append, List.count_cons, count_modelTest_testLoop,
      testSamples, dataLoader]

theorem C9_test_pass_bounded_witness :
    defaultConfig.TEST = true ∧
    (testSaves defaultConfig env0).length =
      min defaultConfig.TEST_SAMPLE env0.testFiles.length ∧
    (testSaves defaultConfig env0).length ≤ defaultConfig.TEST_SAMPLE :=
  ⟨rfl, (C9_test_pass_bounded defaultConfig env0 rfl).2.1,
    (C9_test_pass_bounded defaultConfig env0 rfl).2.2.1⟩


/-! ### Claim C10 -/

/-- C10: with TRAIN and SAVE_CKPTS set and EPOCHS at least 1, after the
epoch loop a final save_network(EPOCHS-1) always happens (with its image
when SAVE_IMG_CKPT is set), regardless of whether EPOCHS-1 is a multiple
of CKPT_FREQ; when it is a multiple, the identical save (same epoch
index, hence the same checkpoint file) is performed twice over the run,
otherwise once. -/
theorem C10_final_checkpoint (c : Config) (env : Env) (hT : c.TRAIN = true)
    (hS : c.SAVE_CKPTS = true) (hE : 1 ≤ c.EPOCHS) :
    Event.saveNetwork (c.EPOCHS - 1) ∈ trainFinal c ∧
    List.count (Event.saveNetwork (c.EPOCHS - 1)) (mainTrace c env) =
      (if (c.EPOCHS - 1) % c.CKPT_FREQ = 0 then 2 else 1) ∧
    (c.SAVE_IMG_CKPT = true →
      Event.saveVisuals (epochImgPath c (c.EPOCHS - 1)) ∈ trainFinal c) := by
  have hseg : List.count (Event.saveNetwork (c.EPOCHS - 1)) ((trainSegs c env).flatMap Prod.snd) =
      if (c.EPOCHS - 1) % c.CKPT_FREQ = 0 then 1 else 0 := by
    rw [trainSegs, count_flat_epochLoop
        (fun e => if c.EPOCHS - 1 = e ∧ c.SAVE_CKPTS = true ∧ e % c.CKPT_FREQ = 0 then 1 else 0)
        (fun e ti => count_saveNetwork_epochBody c (trainSamples env) (c.EPOCHS - 1) e ti),
      sum_range_indicator]
    have hlt : c.EPOCHS - 1 < c.EPOCHS := by omega
    by_cases hm : (c.EPOCHS - 1) % c.CKPT_FREQ = 0 <;> simp [hm, hlt, hS]
  have hfin := count_saveNetwork_trainFinal c (c.EPOCHS - 1)
  rw [if_pos ⟨hS, rfl⟩] at hfin
  refine ⟨by simp [trainFinal, hS], ?_, fun hI => by simp [trainFinal, hS, hI]⟩
  by_cases h2 : c.TEST = true <;> by_cases h3 : c.EXPORT_MODEL = true <;>
    simp only [mainTrace_eq, hT, h2, h3, if_true, if_false, trainTrace, List.count_append,
      List.count_cons, List.count_nil, hseg, hfin, List.append_assoc, List.cons_append,
      List.nil_append, Bool.false_eq_true,
      List.count_eq_zero.mpr (saveNetwork_not_mem_dirSetup c env (c.EPOCHS - 1)),
      List.count_eq_zero.mpr (saveNetwork_not_mem_testTrace c env (c.EPOCHS - 1)),
      List.count_eq_zero.mpr (saveNetwork_not_mem_exportTrace c env (c.EPOCHS - 1))] <;>
    by_cases hm : (c.EPOCHS - 1) % c.CKPT_FREQ = 0 <;>
    simp [hm] <;>
    omega

theorem C10_final_checkpoint_witness :
    (defaultConfig.TRAIN = true ∧ defaultConfig.SAVE_CKPTS = true ∧
      1 ≤ defaultConfig.EPOCHS) ∧
    Event.saveNetwork (defaultConfig.EPOCHS - 1) ∈ trainFinal defaultConfig ∧
    List.count (Event.saveNetwork (defaultConfig.EPOCHS - 1)) (mainTrace defaultConfig env0) =
      (if (defaultConfig.EPOCHS - 1) % defaultConfig.CKPT_FREQ = 0 then 2 else 1) :=
  ⟨⟨rfl, rfl, by decide⟩,
    (C10_final_checkpoint defaultConfig env0 rfl rfl (by decide)).1,
    (C10_final_checkpoint defaultConfig env0 rfl rfl (by decide)).2.1⟩


theorem C5_modes_sequential_witness :
    List.Pairwise (fun a b => Mode.idx a.1 ≤ Mode.idx b.1) (mainTagged defaultConfig env0) :=
  (C5_modes_sequential defaultConfig env0).1

theorem C8_output_locations_witness :
    CKPT_DIR defaultConfig = "checkpoints/" ++ defaultConfig.MODEL_NAME ∧
    List.count (Event.exportOnnx (exportPath defaultConfig)) (mainTrace defaultConfig env0) = 1 :=
  ⟨(C8_output_locations defaultConfig env0).1,
    (C8_output_locations defaultConfig env0).2.2.2.2.2.2.2.2.2.2.1 rfl⟩

end Pix2Pix
